import Mathlib

/-!
Verification of the car-catalog application (`app.py`, `analysis_utils.py`).

The development shallowly embeds the query engine of the application:
the numeric-parameter parser `_to_int`, the filter/search engine
`apply_filters` (whose free-text search goes through pandas
`Series.str.contains`, i.e. regular-expression search), the two
similarity queries of the `recommend` route, the favorites toggle,
the id assignment performed at dataset load, and the `/api/search`
endpoint.

Modelling conventions:
* a pandas cell that may be NaN is an `Option`;
* numeric cells are exact rationals (`Rat`); the float literals
  `0.8, 1.2, 0.9, 1.1` of the source are modelled as the exact
  rationals `4/5, 6/5, 9/10, 11/10`;
* a Python function that may raise an exception observable by the
  caller returns `Except Unit`; a `try/except` that swallows the
  exception returns `Option`;
* strings are assumed ASCII for `lower`/`strip` (the dataset is ASCII).
-/

/-! ### Python `int(...)` and `_to_int` (app.py lines 34-43) -/

/-- True when `l` is a non-empty run of decimal digits. -/
def isDigitList (l : List Char) : Bool :=
  !l.isEmpty && l.all (fun c => c.isDigit)

/-- Numeric value of a run of decimal digits. -/
def digitsVal (l : List Char) : Nat :=
  l.foldl (fun a c => 10 * a + (c.toNat - 48)) 0

/-- Python `str.strip()`: drop leading and trailing whitespace. -/
def pyStrip (s : String) : String :=
  ⟨((s.data.dropWhile Char.isWhitespace).reverse.dropWhile Char.isWhitespace).reverse⟩

/-- Python `str.lower()` (ASCII). -/
def pyLower (s : String) : String :=
  ⟨s.data.map Char.toLower⟩

/-- Worker for Python `str.split()` with no separator: split on runs
of whitespace, dropping empty pieces; `cur` holds the current word
reversed. -/
def wordsAux : List Char → List Char → List String
  | [], cur => if cur.isEmpty then [] else [⟨cur.reverse⟩]
  | c :: cs, cur =>
    if c.isWhitespace then
      if cur.isEmpty then wordsAux cs [] else ⟨cur.reverse⟩ :: wordsAux cs []
    else wordsAux cs (c :: cur)

/-- Independent characterisation of the strings accepted by Python
`int(...)`: an optional sign followed by a non-empty digit run. -/
def isIntLiteral (s : String) : Bool :=
  match s.toList with
  | [] => false
  | c :: rest =>
    if c = '-' then isDigitList rest
    else if c = '+' then isDigitList rest
    else isDigitList (c :: rest)

/-- Signed value of an integer literal. -/
def intValOfLit (s : String) : Int :=
  match s.toList with
  | [] => 0
  | c :: rest =>
    if c = '-' then -(digitsVal rest : Int)
    else if c = '+' then (digitsVal rest : Int)
    else (digitsVal (c :: rest) : Int)

/-- Models the Python builtin `int` applied to an already-stripped
string: `none` is the `ValueError` case (optional sign + digits only;
the rarely used underscore separators of Python are not modelled). -/
def pyInt (s : String) : Option Int :=
  if isIntLiteral s then some (intValOfLit s) else none

/-- `_to_int` from app.py: `None` stays `None`, the string is stripped,
an empty string gives `None`, and any parse failure is swallowed by the
`try/except` and gives `None`. -/
def _to_int (x : Option String) : Option Int :=
  match x with
  | none => none
  | some v =>
    let s := pyStrip v
    if s = "" then none else pyInt s

/-! ### A small regular-expression engine

`Series.str.contains(term, na=False)` treats its argument as a regular
expression and applies `re.search`.  The engine below models the part
of Python's `re` patterns built from literal characters, `.`, the
quantifiers `*`, `+`, `?` and alternation `|`.  Patterns using the
unmodelled metacharacters `( ) [ ] \x7b \x7d \ ^ $`, or a quantifier with
nothing to repeat, are rejected (`none`), as `re.compile` rejects a
malformed pattern; the model rejects more patterns than `re` does
(groups, classes, anchors, counted and lazy quantifiers are treated as
parse failures). -/

inductive Regex where
  | fail : Regex
  | eps : Regex
  | lit : Char → Regex
  | dot : Regex
  | cat : Regex → Regex → Regex
  | alt : Regex → Regex → Regex
  | star : Regex → Regex
deriving DecidableEq

/-- Does the regex accept the empty string? -/
def Regex.nullable : Regex → Bool
  | .fail => false
  | .eps => true
  | .lit _ => false
  | .dot => false
  | .cat a b => a.nullable && b.nullable
  | .alt a b => a.nullable || b.nullable
  | .star _ => true

/-- Brzozowski derivative of a regex by one character. -/
def Regex.deriv : Regex → Char → Regex
  | .fail, _ => .fail
  | .eps, _ => .fail
  | .lit c, d => if c = d then .eps else .fail
  | .dot, _ => .eps
  | .cat a b, d => if a.nullable then .alt (.cat (a.deriv d) b) (b.deriv d) else .cat (a.deriv d) b
  | .alt a b, d => .alt (a.deriv d) (b.deriv d)
  | .star a, d => .cat (a.deriv d) (.star a)

/-- Does some (possibly empty) leading segment of `s` match `r`? -/
def Regex.matchesSomeStart : Regex → List Char → Bool
  | r, [] => r.nullable
  | r, c :: cs => r.nullable || (r.deriv c).matchesSomeStart cs

/-- `re.search` as a boolean: some contiguous segment of `s` matches. -/
def Regex.search : Regex → List Char → Bool
  | r, [] => r.nullable
  | r, c :: cs => r.matchesSomeStart (c :: cs) || r.search cs

/-- One trailing quantifier applied to the preceding atom. -/
def quantify (k : Char) (r : Regex) : Regex :=
  if k = '*' then .star r
  else if k = '+' then .cat r (.star r)
  else .alt .eps r

/-- Concatenation of a reversed factor list. -/
def catOfRev (l : List Regex) : Regex :=
  l.reverse.foldr Regex.cat .eps

/-- Alternation of a reversed alternative list (never empty in use). -/
def altOfRev (l : List Regex) : Regex :=
  match l.reverse with
  | [] => .fail
  | a :: rest => rest.foldl Regex.alt a

/-- Pattern-compilation loop: `alts` holds completed alternatives
(reversed), `seq` the factors of the current alternative (reversed),
`canQ` whether a quantifier may be applied to the last factor. -/
def parseLoop : List Char → List Regex → List Regex → Bool → Option Regex
  | [], alts, seq, _ => some (altOfRev (catOfRev seq :: alts))
  | c :: cs, alts, seq, canQ =>
    if c = '|' then parseLoop cs (catOfRev seq :: alts) [] false
    else if c = '*' || c = '+' || c = '?' then
      if canQ then
        match seq with
        | r :: rest => parseLoop cs alts (quantify c r :: rest) false
        | [] => none
      else none
    else if c = '.' then parseLoop cs alts (.dot :: seq) true
    else if c = '(' || c = ')' || c = '[' || c = ']' || c = '\x7b' || c = '\x7d'
        || c = '\\' || c = '^' || c = '$' then none
    else parseLoop cs alts (.lit c :: seq) true

/-- Models `re.compile` on the modelled fragment. -/
def parseRe (pat : String) : Option Regex :=
  parseLoop pat.toList [] [] false

/-! ### Records and filter criteria -/

/-- One row of the loaded dataframe.  The six categorical columns may
be NaN (`none`); `year`, `horsepower`, `price_usd` were passed through
`pd.to_numeric(errors="coerce")`, so they are numeric-or-NaN. -/
structure Record where
  id : Int
  brand : Option String
  model : Option String
  body_type : Option String
  fuel_type : Option String
  drive_type : Option String
  transmission : Option String
  year : Option Rat
  horsepower : Option Rat
  price_usd : Option Rat
deriving DecidableEq

/-- The thirteen request parameters consumed by `apply_filters`; each
is either absent (`None`) or the raw request string. -/
structure FilterCriteria where
  q : Option String
  brand : Option String
  model : Option String
  body_type : Option String
  fuel_type : Option String
  drive_type : Option String
  transmission : Option String
  year_min : Option String
  year_max : Option String
  hp_min : Option String
  hp_max : Option String
  price_min : Option String
  price_max : Option String
deriving DecidableEq

/-- Python truthiness of an optional string parameter. -/
def truthy (x : Option String) : Bool :=
  !((x.getD "") = "")

/-- The string carried by a parameter (`""` for `None`). -/
def strOf (x : Option String) : String :=
  x.getD ""

/-- The guard `if q and str(q).strip():` of app.py line 71. -/
def textActive (x : Option String) : Bool :=
  !(pyStrip (x.getD "") = "")

/-- `str(q).strip().lower().split()`: lowercased whitespace-separated
search terms (Python `split()` drops empty pieces). -/
def pyTerms (q : String) : List String :=
  wordsAux (pyLower (pyStrip q)).data []

/-- The search haystack of one row: the six categorical columns after
`astype(str)` (NaN becomes the literal string `"nan"`), joined with
single spaces and lowercased (app.py lines 73-80). -/
def haystack (r : Record) : String :=
  pyLower (String.intercalate " "
    [r.brand.getD "nan", r.model.getD "nan", r.body_type.getD "nan",
     r.fuel_type.getD "nan", r.drive_type.getD "nan", r.transmission.getD "nan"])

/-- A conditionally applied dataframe mask: `if b: l = l[p]`. -/
def condFilter (b : Bool) (p : Record → Bool) (l : List Record) : List Record :=
  if b then l.filter p else l

/-- `value >= bound` on a possibly-NaN cell (NaN compares false). -/
def boundGE (v : Option Rat) (n : Int) : Bool :=
  match v with
  | some x => decide ((n : Rat) ≤ x)
  | none => false

/-- `value <= bound` on a possibly-NaN cell (NaN compares false). -/
def boundLE (v : Option Rat) (n : Int) : Bool :=
  match v with
  | some x => decide (x ≤ (n : Rat))
  | none => false

/-- `v = _to_int(param); if v is not None: l = l[get >= v]`. -/
def numFilterGE (get : Record → Option Rat) (param : Option String) (l : List Record) : List Record :=
  match _to_int param with
  | none => l
  | some n => l.filter (fun r => boundGE (get r) n)

/-- `v = _to_int(param); if v is not None: l = l[get <= v]`. -/
def numFilterLE (get : Record → Option Rat) (param : Option String) (l : List Record) : List Record :=
  match _to_int param with
  | none => l
  | some n => l.filter (fun r => boundLE (get r) n)

/-- Compilation of every search term, in order; the first malformed
pattern aborts, as the `re.error` raised inside `str.contains` would. -/
def parseAll : List String → Option (List Regex)
  | [] => some []
  | t :: ts =>
    match parseRe t, parseAll ts with
    | some r, some rs => some (r :: rs)
    | _, _ => none

/-- The free-text stage of `apply_filters` (lines 71-86): when active,
every term is compiled (`none` models the `re.error` escaping from
`str.contains`) and a row is kept when every compiled term is found in
its haystack by `re.search`. -/
def textStage (q : Option String) (data : List Record) : Option (List Record) :=
  if textActive q then
    (parseAll (pyTerms (strOf q))).map
      (fun rs => data.filter (fun r => rs.all (fun re => re.search (haystack r).toList)))
  else some data

/-- `apply_filters` from app.py lines 58-124: the free-text stage, six
categorical equality stages, then six numeric bound stages, in source
order.  `Except.error ()` is an exception escaping to the caller. -/
def apply_filters (data : List Record) (c : FilterCriteria) : Except Unit (List Record) :=
  match textStage c.q data with
  | none => .error ()
  | some f1 =>
    let f2 := condFilter (truthy c.brand) (fun r => r.brand = some (strOf c.brand)) f1
    let f3 := condFilter (truthy c.model) (fun r => r.model = some (strOf c.model)) f2
    let f4 := condFilter (truthy c.body_type) (fun r => r.body_type = some (strOf c.body_type)) f3
    let f5 := condFilter (truthy c.fuel_type) (fun r => r.fuel_type = some (strOf c.fuel_type)) f4
    let f6 := condFilter (truthy c.drive_type) (fun r => r.drive_type = some (strOf c.drive_type)) f5
    let f7 := condFilter (truthy c.transmission) (fun r => r.transmission = some (strOf c.transmission)) f6
    let f8 := numFilterGE (fun r => r.year) c.year_min f7
    let f9 := numFilterLE (fun r => r.year) c.year_max f8
    let f10 := numFilterGE (fun r => r.horsepower) c.hp_min f9
    let f11 := numFilterLE (fun r => r.horsepower) c.hp_max f10
    let f12 := numFilterGE (fun r => r.price_usd) c.price_min f11
    let f13 := numFilterLE (fun r => r.price_usd) c.price_max f12
    .ok f13

/-! ### Direct per-record predicate evaluation -/

/-- One term holds of a haystack: the term compiles and `re.search`
finds it. -/
def termHolds (t : String) (h : String) : Bool :=
  match parseRe t with
  | some re => re.search h.toList
  | none => false

/-- Direct evaluation of the free-text constraint on one record. -/
def textPass (q : Option String) (r : Record) : Bool :=
  !textActive q || (pyTerms (strOf q)).all (fun t => termHolds t (haystack r))

/-- Direct evaluation of one categorical constraint on one record. -/
def catPass (field : Option String) (param : Option String) : Bool :=
  !truthy param || field = some (strOf param)

/-- Direct evaluation of one lower bound on one record. -/
def rangePassGE (v : Option Rat) (param : Option String) : Bool :=
  match _to_int param with
  | none => true
  | some n => boundGE v n

/-- Direct evaluation of one upper bound on one record. -/
def rangePassLE (v : Option Rat) (param : Option String) : Bool :=
  match _to_int param with
  | none => true
  | some n => boundLE v n

/-- Direct conjunction of every constraint of the criteria, evaluated
on a single record. -/
def satisfiesCriteria (c : FilterCriteria) (r : Record) : Bool :=
  textPass c.q r
  && catPass r.brand c.brand && catPass r.model c.model
  && catPass r.body_type c.body_type && catPass r.fuel_type c.fuel_type
  && catPass r.drive_type c.drive_type && catPass r.transmission c.transmission
  && rangePassGE r.year c.year_min && rangePassLE r.year c.year_max
  && rangePassGE r.horsepower c.hp_min && rangePassLE r.horsepower c.hp_max
  && rangePassGE r.price_usd c.price_min && rangePassLE r.price_usd c.price_max

/-! ### Similarity queries (app.py lines 216-247) -/

/-- Pandas equality of two possibly-NaN string cells: NaN equals
nothing, not even NaN. -/
def pdEqStr (a b : Option String) : Bool :=
  match a, b with
  | some x, some y => x = y
  | _, _ => false

/-- `Series.between(lo, hi)` on possibly-NaN operands: inclusive on
both ends, false whenever the value or either bound is NaN. -/
def pdBetween (v lo hi : Option Rat) : Bool :=
  match v, lo, hi with
  | some x, some l, some h => decide (l ≤ x) && decide (x ≤ h)
  | _, _, _ => false

/-- `df[df["id"] == car_id].iloc[0]`: first row carrying the id. -/
def findById (table : List Record) (i : Int) : Option Record :=
  table.find? (fun r => r.id = i)

/-- The `similar` query of the `recommend` route: same brand, same
body type, year within plus/minus 1, horsepower within the closed
interval [0.8*hp, 1.2*hp], and not the reference row itself.  `none`
is the 404 branch (id absent). -/
def similarByAttributes (table : List Record) (i : Int) : Option (List Record) :=
  (findById table i).map (fun car =>
    table.filter (fun r =>
      pdEqStr r.brand car.brand
      && pdEqStr r.body_type car.body_type
      && pdBetween r.year (car.year.map (fun y => y - 1)) (car.year.map (fun y => y + 1))
      && pdBetween r.horsepower (car.horsepower.map (fun h => h * (4/5 : Rat)))
          (car.horsepower.map (fun h => h * (6/5 : Rat)))
      && !(r.id = i)))

/-- The `price_range_cars` query of the `recommend` route: price
within the closed interval [0.9*price, 1.1*price], excluding the
reference row.  `none` is the 404 branch. -/
def similarByPrice (table : List Record) (i : Int) : Option (List Record) :=
  (findById table i).map (fun car =>
    table.filter (fun r =>
      pdBetween r.price_usd (car.price_usd.map (fun p => p * (9/10 : Rat)))
        (car.price_usd.map (fun p => p * (11/10 : Rat)))
      && !(r.id = i)))

/-! ### Favorites toggle (app.py lines 194-206) -/

/-- `toggle_favorite`: remove the first occurrence if present
(`list.remove`), else append (`list.append`). -/
def toggle_favorite (favorites : List Int) (car_id : Int) : List Int :=
  if car_id ∈ favorites then favorites.erase car_id else favorites ++ [car_id]

/-! ### Id assignment at load (app.py lines 28-31) -/

/-- Models `pd.to_numeric(errors="coerce")` followed by `astype(int)`
on one cell, restricted to optional-sign decimal literals with an
optional fractional part; any other string coerces to NaN (`none`).
`astype(int)` truncates towards zero. -/
def toNumericInt (s : String) : Option Int :=
  let t := pyStrip s
  let core := fun (l : List Char) =>
    match l.splitOn '.' with
    | [ip] => if isDigitList ip then some ((digitsVal ip : Int)) else none
    | [ip, fp] =>
      if (ip.all (fun c => c.isDigit)) && (fp.all (fun c => c.isDigit)) && !(ip.isEmpty && fp.isEmpty)
      then some ((digitsVal ip : Int))
      else none
    | _ => none
  match t.toList with
  | '-' :: rest => (core rest).map (fun n => -n)
  | '+' :: rest => core rest
  | l => core l

/-- The id column after load: if the source has no `id` column the
row index 0..n-1 is used; otherwise each cell is numerically coerced
with NaN filled by 0 (`fillna(0).astype(int)`). -/
def loadIds (idCol : Option (List String)) (n : Nat) : List Int :=
  match idCol with
  | none => (List.range n).map Int.ofNat
  | some vals => vals.map (fun s => (toNumericInt s).getD 0)

/-! ### The `/api/search` endpoint (app.py lines 308-335) -/

/-- `limit`: `int(request.args.get("limit", 8))` clamped by
`max(1, min(20, limit))`, falling back to 8 when parsing raises
(Python `int` strips whitespace itself). -/
def apiLimit (lP : Option String) : Int :=
  match lP with
  | none => max 1 (min 20 8)
  | some s =>
    match pyInt (pyStrip s) with
    | some n => max 1 (min 20 n)
    | none => 8

/-- The ascending-price comparison used by
`sort_values(by="price_usd")`: NaN sorts after every number. -/
def priceLe (a b : Option Rat) : Bool :=
  match a, b with
  | some x, some y => decide (x ≤ y)
  | some _, none => true
  | none, some _ => false
  | none, none => true

/-- `priceLe` lifted to rows, as a decidable relation. -/
def priceRel (a b : Record) : Prop :=
  priceLe a.price_usd b.price_usd = true

instance : DecidableRel priceRel :=
  fun a b => inferInstanceAs (Decidable (priceLe a.price_usd b.price_usd = true))

/-- `sort_values(by="price_usd", ascending=True)`: an ascending sort
by price with NaN placed last (the concrete stable algorithm is
irrelevant to the endpoint's contract). -/
def sortByPrice (l : List Record) : List Record :=
  List.insertionSort priceRel l

/-- The six columns serialised by `/api/search`. -/
structure ApiRow where
  id : Int
  brand : Option String
  model : Option String
  year : Option Rat
  price_usd : Option Rat
  body_type : Option String
deriving DecidableEq

/-- Projection of a row to the serialised columns (all six columns
always exist in the typed model, so the column-adding loop of the
source is the identity here). -/
def toApiRow (r : Record) : ApiRow :=
  ⟨r.id, r.brand, r.model, r.year, r.price_usd, r.body_type⟩

/-- The criteria passed by `api_search`: only `q` and `brand`. -/
def mkSearchCrit (q brand : String) : FilterCriteria :=
  ⟨some q, some brand, none, none, none, none, none, none, none, none, none, none, none⟩

/-- `api_search`: strip `q` and `brand`, compute the clamped limit,
short-circuit to `[]` when the query is shorter than 2 characters and
no brand is given, otherwise filter, sort ascending by price, truncate
to `limit` rows and project.  `Except.error ()` is an exception
escaping to the HTTP layer. -/
def api_search (table : List Record) (qP bP lP : Option String) : Except Unit (List ApiRow) :=
  let q := pyStrip (qP.getD "")
  let brand := pyStrip (bP.getD "")
  let limit := apiLimit lP
  if q.length < 2 && brand = "" then .ok []
  else
    match apply_filters table (mkSearchCrit q brand) with
    | .error e => .error e
    | .ok result => .ok (((sortByPrice result).take limit.toNat).map toApiRow)

/-! ### The specified substring text predicate (spec section 4.1) -/

/-- The text-match predicate exactly as the specification words it:
every term must be a plain substring of the record's haystack. -/
def specTextMatch (q : String) (r : Record) : Bool :=
  (pyTerms q).all (fun t => decide (List.IsInfix t.toList (haystack r).toList))

/-! ### Helper lemmas about the filter engine -/

theorem pyInt_eq_none_of_not_lit {t : String} (h : isIntLiteral t = false) :
    pyInt t = none := by
  simp [pyInt, h]

theorem mem_condFilter {b : Bool} {p : Record → Bool} {l : List Record} {r : Record} :
    r ∈ condFilter b p l ↔ r ∈ l ∧ (b = true → p r = true) := by
  cases b <;> simp [condFilter, List.mem_filter]

theorem mem_numFilterGE {get : Record → Option Rat} {param : Option String}
    {l : List Record} {r : Record} :
    r ∈ numFilterGE get param l ↔ r ∈ l ∧ rangePassGE (get r) param = true := by
  unfold numFilterGE rangePassGE
  cases _to_int param <;> simp [List.mem_filter]

theorem mem_numFilterLE {get : Record → Option Rat} {param : Option String}
    {l : List Record} {r : Record} :
    r ∈ numFilterLE get param l ↔ r ∈ l ∧ rangePassLE (get r) param = true := by
  unfold numFilterLE rangePassLE
  cases _to_int param <;> simp [List.mem_filter]

theorem all_search_of_parseAll (h : String) :
    ∀ (ts : List String) (rs : List Regex), parseAll ts = some rs →
      (rs.all (fun re => re.search h.toList) = ts.all (fun t => termHolds t h)) := by
  intro ts
  induction ts with
  | nil =>
    intro rs hrs
    simp only [parseAll, Option.some.injEq] at hrs
    subst hrs
    simp
  | cons t ts ih =>
    intro rs hrs
    unfold parseAll at hrs
    rcases ht : parseRe t with _ | re <;> rw [ht] at hrs
    · simp at hrs
    · rcases hts : parseAll ts with _ | rest <;> rw [hts] at hrs
      · simp at hrs
      · simp only [Option.some.injEq] at hrs
        subst hrs
        rw [List.all_cons, List.all_cons, ih rest hts]
        simp [termHolds, ht]

theorem mem_textStage {q : Option String} {data f1 : List Record} {r : Record}
    (h : textStage q data = some f1) :
    r ∈ f1 ↔ r ∈ data ∧ textPass q r = true := by
  unfold textStage at h
  by_cases hq : textActive q = true
  · rw [if_pos hq] at h
    rcases hm : parseAll (pyTerms (strOf q)) with _ | rs <;> rw [hm] at h
    · simp [Option.map] at h
    · simp only [Option.map_some', Option.some.injEq] at h
      subst h
      simp only [List.mem_filter, textPass, hq, Bool.not_true, Bool.false_or,
        all_search_of_parseAll (haystack r) _ _ hm]
  · rw [if_neg hq] at h
    have hq' : textActive q = false := by
      cases hv : textActive q
      · rfl
      · exact absurd hv hq
    simp only [Option.some.injEq] at h
    subst h
    simp [textPass, hq']

theorem catPass_iff {field param : Option String} :
    catPass field param = true ↔ (truthy param = true → field = some (strOf param)) := by
  unfold catPass
  cases truthy param <;> simp

theorem mem_apply_filters {data : List Record} {c : FilterCriteria} {res : List Record}
    (h : apply_filters data c = Except.ok res) (r : Record) :
    r ∈ res ↔ r ∈ data ∧ satisfiesCriteria c r = true := by
  unfold apply_filters at h
  rcases ht : textStage c.q data with _ | f1 <;> rw [ht] at h
  · exact absurd h (by simp)
  · simp only [Except.ok.injEq] at h
    subst h
    simp only [satisfiesCriteria, Bool.and_eq_true, mem_numFilterLE, mem_numFilterGE,
      mem_condFilter, mem_textStage ht, catPass_iff, decide_eq_true_eq, and_assoc]

/-! ### Helper lemmas about similarity, sorting and the API endpoint -/

theorem pdEqStr_true {a b : Option String} (h : pdEqStr a b = true) : a = b := by
  cases a <;> cases b <;> simp [pdEqStr] at h
  simp [h]

theorem pdBetween_lo_none {v hi : Option Rat} : pdBetween v none hi = false := by
  cases v <;> cases hi <;> rfl

theorem pdBetween_hi_none {v lo : Option Rat} : pdBetween v lo none = false := by
  cases v <;> cases lo <;> rfl

theorem priceLe_total (a b : Option Rat) : priceLe a b = true ∨ priceLe b a = true := by
  cases a <;> cases b <;> simp [priceLe]
  exact le_total _ _

theorem priceLe_trans {a b c : Option Rat} (hab : priceLe a b = true)
    (hbc : priceLe b c = true) : priceLe a c = true := by
  cases a <;> cases b <;> cases c <;> simp_all [priceLe]
  exact le_trans hab hbc

instance : IsTotal Record priceRel :=
  ⟨fun a b => priceLe_total a.price_usd b.price_usd⟩

instance : IsTrans Record priceRel :=
  ⟨fun _ _ _ hab hbc => priceLe_trans hab hbc⟩

theorem sortByPrice_perm (l : List Record) : (sortByPrice l).Perm l :=
  List.perm_insertionSort priceRel l

theorem sortByPrice_pairwise (l : List Record) :
    (sortByPrice l).Pairwise (fun a b => priceLe a.price_usd b.price_usd = true) :=
  List.sorted_insertionSort priceRel l

/-- Everything `api_search` guarantees about a successfully produced
response list, shared by the endpoint theorems. -/
theorem api_search_ok_shape {table : List Record} {qP bP lP : Option String}
    {res : List ApiRow} (h : api_search table qP bP lP = Except.ok res) :
    res.length ≤ (apiLimit lP).toNat ∧
    res.Pairwise (fun a b => priceLe a.price_usd b.price_usd = true) ∧
    (((pyStrip (qP.getD "")).length < 2 ∧ pyStrip (bP.getD "") = "") ∨
      ∃ fres, apply_filters table (mkSearchCrit (pyStrip (qP.getD "")) (pyStrip (bP.getD ""))) = Except.ok fres ∧
        ∀ row ∈ res, ∃ r, r ∈ fres ∧ toApiRow r = row) := by
  unfold api_search at h
  by_cases hsc : ((pyStrip (qP.getD "")).length < 2 ∧ pyStrip (bP.getD "") = "")
  · rw [if_pos (by simp [hsc.1, hsc.2])] at h
    simp only [Except.ok.injEq] at h
    subst h
    exact ⟨by simp, List.Pairwise.nil, Or.inl hsc⟩
  · have hcond : (decide ((pyStrip (qP.getD "")).length < 2) && (pyStrip (bP.getD "") = "")) = false := by
      rcases Decidable.not_and_iff_or_not.1 hsc with h1 | h2
      · simp [h1]
      · simp [h2]
    rw [if_neg (by simp [hcond])] at h
    rcases happ : apply_filters table (mkSearchCrit (pyStrip (qP.getD "")) (pyStrip (bP.getD ""))) with e | fres <;>
      rw [happ] at h
    · exact absurd h (by simp)
    · simp only [Except.ok.injEq] at h
      subst h
      refine ⟨?_, ?_, Or.inr ⟨fres, rfl, ?_⟩⟩
      · calc (((sortByPrice fres).take (apiLimit lP).toNat).map toApiRow).length
            = ((sortByPrice fres).take (apiLimit lP).toNat).length := List.length_map _ _
          _ ≤ (apiLimit lP).toNat := by
              rw [List.length_take]
              exact min_le_left _ _
      · refine List.pairwise_map.2 ?_
        exact ((sortByPrice_pairwise fres).sublist ((sortByPrice fres).take_sublist _))
      · intro row hrow
        rcases List.mem_map.1 hrow with ⟨r, hr, hrow'⟩
        refine ⟨r, ?_, hrow'⟩
        have : r ∈ sortByPrice fres := (sortByPrice fres).take_subset _ hr
        exact (sortByPrice_perm fres).mem_iff.1 this

/-! ### Concrete sample data -/

/-- Sample row 1 (spec section 8 example). -/
def carA : Record :=
  ⟨1, some "Toyota", some "Camry", some "Sedan", some "Petrol", some "FWD",
   some "Automatic", some 2020, some 150, some 20000⟩

/-- Sample row 2 (spec section 8 example). -/
def carB : Record :=
  ⟨2, some "Toyota", some "Corolla", some "Sedan", some "Petrol", some "FWD",
   some "Manual", some 2021, some 160, some 21000⟩

/-- Sample row 3: NaN price. -/
def carC : Record :=
  ⟨3, some "Honda", some "Civic", some "Sedan", some "Petrol", some "FWD",
   some "Automatic", some 2020, some 140, none⟩

/-- Sample row 4: NaN year and NaN price. -/
def carN : Record :=
  ⟨7, some "Lada", some "Niva", some "SUV", none, none, none, none, some 100, none⟩

/-- A row whose haystack contains no literal dot. -/
def dotRecord : Record :=
  ⟨0, some "a", none, none, none, none, none, none, none, none⟩

/-- Criteria with every parameter absent. -/
def noCrit : FilterCriteria :=
  ⟨none, none, none, none, none, none, none, none, none, none, none, none, none⟩

/-- Criteria with only `year_min=2021`. -/
def yMinCrit : FilterCriteria :=
  ⟨none, none, none, none, none, none, none, some "2021", none, none, none, none, none⟩

/-- Criteria with only the free-text query `.` . -/
def dotCrit : FilterCriteria :=
  ⟨some ".", none, none, none, none, none, none, none, none, none, none, none, none⟩

/-! ### Claim theorems -/

/-- Claim C1: whenever `apply_filters(table, c)` returns a result,
every record of the result satisfies every constraint of `c` (text
terms, categorical equalities, numeric bounds) and every record of the
table absent from the result violates at least one constraint, as
checked by direct predicate evaluation on that record. -/
theorem apply_filters_sound_complete (data : List Record) (c : FilterCriteria)
    (res : List Record) (h : apply_filters data c = Except.ok res) (r : Record) :
    r ∈ res ↔ r ∈ data ∧ satisfiesCriteria c r = true :=
  mem_apply_filters h r

/-- Witness for C1 at a concrete table and criteria. -/
theorem apply_filters_sound_complete_witness :
    carB ∈ [carB] ↔ carB ∈ [carA, carB] ∧ satisfiesCriteria yMinCrit carB = true :=
  apply_filters_sound_complete [carA, carB] yMinCrit [carB] rfl carB

theorem rangePassGE_none {param : Option String} (hs : (_to_int param).isSome = true) :
    rangePassGE none param = false := by
  unfold rangePassGE
  rcases hp : _to_int param with _ | n
  · rw [hp] at hs
    simp at hs
  · rfl

theorem rangePassLE_none {param : Option String} (hs : (_to_int param).isSome = true) :
    rangePassLE none param = false := by
  unfold rangePassLE
  rcases hp : _to_int param with _ | n
  · rw [hp] at hs
    simp at hs
  · rfl

/-- Claim C3: a record whose year (resp. horsepower, price_usd) is
null is excluded by `apply_filters` as soon as any bound on that field
is set: a null value never satisfies an inclusive bound. -/
theorem null_cell_excluded_by_bounds (data : List Record) (c : FilterCriteria)
    (res : List Record) (h : apply_filters data c = Except.ok res) (r : Record) :
    (r.year = none →
      ((_to_int c.year_min).isSome = true ∨ (_to_int c.year_max).isSome = true) → r ∉ res) ∧
    (r.horsepower = none →
      ((_to_int c.hp_min).isSome = true ∨ (_to_int c.hp_max).isSome = true) → r ∉ res) ∧
    (r.price_usd = none →
      ((_to_int c.price_min).isSome = true ∨ (_to_int c.price_max).isSome = true) → r ∉ res) := by
  refine ⟨?_, ?_, ?_⟩ <;> intro hnull hbound hmem <;>
    have hs := ((mem_apply_filters h r).1 hmem).2 <;>
    simp only [satisfiesCriteria, Bool.and_eq_true, and_assoc] at hs <;>
    obtain ⟨-, -, -, -, -, -, -, h8, h9, h10, h11, h12, h13⟩ := hs
  · rw [hnull] at h8 h9
    rcases hbound with hb | hb
    · simp [rangePassGE_none hb] at h8
    · simp [rangePassLE_none hb] at h9
  · rw [hnull] at h10 h11
    rcases hbound with hb | hb
    · simp [rangePassGE_none hb] at h10
    · simp [rangePassLE_none hb] at h11
  · rw [hnull] at h12 h13
    rcases hbound with hb | hb
    · simp [rangePassGE_none hb] at h12
    · simp [rangePassLE_none hb] at h13

/-- Witness for C3: the NaN-year row is excluded under `year_min=2021`. -/
theorem null_cell_excluded_by_bounds_witness : carN ∉ ([] : List Record) :=
  (null_cell_excluded_by_bounds [carN] yMinCrit [] rfl carN).1 rfl (Or.inl (by decide))

/-- Claim C4: numeric-parameter parsing never surfaces an error: a
missing parameter, an empty or whitespace-only string, and any
non-integer string are all treated as `None` (no constraint). -/
theorem to_int_silent_fallback (s : String) :
    (pyStrip s = "" → _to_int (some s) = none) ∧
    (isIntLiteral (pyStrip s) = false → _to_int (some s) = none) ∧
    _to_int none = none := by
  refine ⟨?_, ?_, rfl⟩
  · intro h
    simp [_to_int, h]
  · intro h
    unfold _to_int
    by_cases he : pyStrip s = ""
    · simp [he]
    · simp [he, pyInt_eq_none_of_not_lit h]

/-- Witness for C4 on a whitespace-only and a non-integer input. -/
theorem to_int_silent_fallback_witness :
    _to_int (some "   ") = none ∧ _to_int (some " 25k ") = none :=
  ⟨(to_int_silent_fallback "   ").1 rfl, (to_int_silent_fallback " 25k ").2.1 rfl⟩

/-- Claim C2 (failing input): pandas `str.contains` treats a search
term as a regular expression, not as a plain substring.  On the row
whose haystack is `"a nan nan nan nan nan"` the query `.` keeps the
row (`.` matches any character) although `"."` is not a substring of
the haystack, so the specified iff between the filter and the
substring predicate fails. -/
theorem text_filter_regex_vs_substring :
    apply_filters [dotRecord] dotCrit = Except.ok [dotRecord] ∧
    specTextMatch "." dotRecord = false :=
  ⟨rfl, rfl⟩

/-- Claim C5: a record returned by the attribute-similarity query is
never the reference row and never differs from it in brand or body
type. -/
theorem similar_by_attributes_excludes (table : List Record) (i : Int)
    (car : Record) (hcar : findById table i = some car)
    (res : List Record) (hres : similarByAttributes table i = some res)
    (r : Record) (hr : r ∈ res) :
    r.id ≠ i ∧ r.brand = car.brand ∧ r.body_type = car.body_type := by
  unfold similarByAttributes at hres
  rw [hcar] at hres
  simp only [Option.map_some', Option.some.injEq] at hres
  subst hres
  have hp := (List.mem_filter.1 hr).2
  simp only [Bool.and_eq_true] at hp
  obtain ⟨⟨⟨⟨hbrand, hbody⟩, -⟩, -⟩, hid⟩ := hp
  refine ⟨?_, pdEqStr_true hbrand, pdEqStr_true hbody⟩
  simpa using hid

unseal Rat.add Rat.sub Rat.mul Rat.inv in
/-- Witness for C5 on the three-row sample table. -/
theorem similar_by_attributes_excludes_witness :
    carB.id ≠ 1 ∧ carB.brand = carA.brand ∧ carB.body_type = carA.body_type :=
  similar_by_attributes_excludes [carA, carB, carC] 1 carA rfl [carB] rfl carB
    (by simp)

/-- Claim C6: when the reference record has a null year or horsepower
the attribute-similarity result is empty, and when it has a null price
the price-band result is empty; the null-bounded interval test fails
closed instead of raising. -/
theorem similar_null_reference_empty (table : List Record) (i : Int)
    (car : Record) (hcar : findById table i = some car) :
    ((car.year = none ∨ car.horsepower = none) → similarByAttributes table i = some []) ∧
    (car.price_usd = none → similarByPrice table i = some []) := by
  constructor
  · intro hnull
    unfold similarByAttributes
    rw [hcar]
    simp only [Option.map_some', Option.some.injEq]
    rw [List.filter_eq_nil_iff]
    intro r _
    rcases hnull with hy | hh
    · rw [hy]
      simp [pdBetween_lo_none]
    · rw [hh]
      simp [pdBetween_lo_none]
  · intro hnull
    unfold similarByPrice
    rw [hcar]
    simp only [Option.map_some', Option.some.injEq]
    rw [List.filter_eq_nil_iff]
    intro r _
    rw [hnull]
    simp [pdBetween_lo_none]

/-- Witness for C6: the NaN-year, NaN-price sample row. -/
theorem similar_null_reference_empty_witness :
    similarByAttributes [carN, carA] 7 = some [] ∧
    similarByPrice [carN, carA] 7 = some [] :=
  ⟨(similar_null_reference_empty [carN, carA] 7 carN rfl).1 (Or.inl rfl),
   (similar_null_reference_empty [carN, carA] 7 carN rfl).2 rfl⟩

/-- Claim C7: on a duplicate-free favorites state, toggling the same
id twice restores the set: membership is unchanged. -/
theorem toggle_twice_restores_set (favorites : List Int) (car_id : Int)
    (hnd : favorites.Nodup) (x : Int) :
    x ∈ toggle_favorite (toggle_favorite favorites car_id) car_id ↔ x ∈ favorites := by
  by_cases hmem : car_id ∈ favorites
  · unfold toggle_favorite
    rw [if_pos hmem, if_neg hnd.not_mem_erase]
    simp only [List.mem_append, List.mem_singleton]
    constructor
    · rintro (hx | hx)
      · exact ((List.Nodup.mem_erase_iff hnd).1 hx).2
      · rw [hx]
        exact hmem
    · intro hx
      by_cases hxc : x = car_id
      · exact Or.inr hxc
      · exact Or.inl ((List.Nodup.mem_erase_iff hnd).2 ⟨hxc, hx⟩)
  · unfold toggle_favorite
    rw [if_neg hmem, if_pos (by simp : car_id ∈ favorites ++ [car_id]),
      List.erase_append_right _ hmem]
    simp

/-- Witness for C7 at a concrete favorites list. -/
theorem toggle_twice_restores_set_witness :
    5 ∈ toggle_favorite (toggle_favorite [5, 3] 7) 7 ↔ 5 ∈ ([5, 3] : List Int) :=
  toggle_twice_restores_set [5, 3] 7 (by decide) 5

/-- Counterexample for C8: a source dataset whose `id` column holds
the non-numeric values `"a"` and `"b"` loads both rows with id `0`
(`to_numeric(errors="coerce").fillna(0)`), so ids are not unique. -/
theorem load_ids_collide_on_nonnumeric :
    loadIds (some ["a", "b"]) 2 = [0, 0] ∧ ¬(loadIds (some ["a", "b"]) 2).Nodup :=
  ⟨rfl, by decide⟩

/-- Claim C8 (amended): when the source dataset has no `id` column the
synthesized ids (the row positions) are unique. -/
theorem load_ids_unique_without_column (n : Nat) : (loadIds none n).Nodup := by
  have h : loadIds none n = (List.range n).map Int.ofNat := rfl
  rw [h]
  exact List.Nodup.map (fun a b hab => Int.ofNat.inj hab) (List.nodup_range n)

/-- Counterexample for C9: a request whose free-text query is the
malformed pattern `++` makes the filter raise inside `str.contains`
(`re.error`), so the endpoint raises instead of returning a JSON
list. -/
theorem api_search_error_on_invalid_pattern :
    api_search [carA] (some "++") none none = Except.error () :=
  rfl

theorem apiLimit_bounds (lP : Option String) : 1 ≤ apiLimit lP ∧ apiLimit lP ≤ 20 := by
  rcases lP with _ | s
  · exact ⟨by decide, by decide⟩
  · have h : apiLimit (some s) =
        (match pyInt (pyStrip s) with
          | some n => max 1 (min 20 n)
          | none => 8) := rfl
    rw [h]
    split
    · exact ⟨le_max_left _ _, max_le (by decide) (min_le_left _ _)⟩
    · exact ⟨by decide, by decide⟩

/-- Claim C9 (amended): the endpoint returns `[]` when the stripped
query is shorter than 2 characters and no brand is given; the limit
defaults to 8 and is clamped to [1, 20]; and every successfully
produced response holds at most `limit` records drawn from the
matching records, sorted ascending by price. -/
theorem api_search_contract (table : List Record) (qP bP lP : Option String) :
    (((pyStrip (qP.getD "")).length < 2 ∧ pyStrip (bP.getD "") = "") →
      api_search table qP bP lP = Except.ok []) ∧
    (1 ≤ apiLimit lP ∧ apiLimit lP ≤ 20) ∧
    (lP = none → apiLimit lP = 8) ∧
    (∀ res, api_search table qP bP lP = Except.ok res →
      res.length ≤ (apiLimit lP).toNat ∧
      res.Pairwise (fun a b => priceLe a.price_usd b.price_usd = true) ∧
      (((pyStrip (qP.getD "")).length < 2 ∧ pyStrip (bP.getD "") = "") ∨
        ∃ fres,
          apply_filters table (mkSearchCrit (pyStrip (qP.getD "")) (pyStrip (bP.getD ""))) =
            Except.ok fres ∧
          ∀ row ∈ res, ∃ r, r ∈ fres ∧ toApiRow r = row)) := by
  refine ⟨?_, ?_, ?_, ?_⟩
  · intro hsc
    unfold api_search
    rw [if_pos (by simp [hsc.1, hsc.2])]
  · exact apiLimit_bounds lP
  · intro h
    subst h
    decide
  · intro res hres
    exact api_search_ok_shape hres

/-- Witness for C9: a one-character query with no brand yields `[]`. -/
theorem api_search_contract_witness :
    api_search [carA, carB, carC] (some "a") none none = Except.ok [] :=
  (api_search_contract [carA, carB, carC] (some "a") none none).1 ⟨by decide, rfl⟩

theorem priceLe_none_forces {a b : Option Rat} (hab : priceLe a b = true)
    (ha : a = none) : b = none := by
  subst ha
  cases b
  · rfl
  · simp [priceLe] at hab

/-- Claim C10: the ascending price sort of `/api/search` is a
permutation (no record is dropped by sorting), and in every response
a null-priced record only ever appears after every record with a
price: null prices sort last. -/
theorem api_search_null_prices_last :
    (∀ l : List Record, (sortByPrice l).Perm l) ∧
    (∀ (table : List Record) (qP bP lP : Option String) (res : List ApiRow),
      api_search table qP bP lP = Except.ok res →
      res.Pairwise (fun a b => a.price_usd = none → b.price_usd = none)) := by
  refine ⟨sortByPrice_perm, ?_⟩
  intro table qP bP lP res hres
  exact ((api_search_ok_shape hres).2.1).imp
    (fun hab hnone => priceLe_none_forces hab hnone)

/-- Witness for C10: a table holding a NaN price and a real price. -/
theorem api_search_null_prices_last_witness :
    ([toApiRow carA, toApiRow carC] : List ApiRow).Pairwise
      (fun a b => a.price_usd = none → b.price_usd = none) :=
  api_search_null_prices_last.2 [carC, carA] (some "sedan") none none
    [toApiRow carA, toApiRow carC] rfl
